import Mathlib

/-!
Shallow embedding of the webhook-parsing and helper layer of the
`zapi_async` Python library (files `zapi_async/types/message.py`,
`zapi_async/types/webhook.py`, `zapi_async/_helpers.py`), together with
theorems settling the specification claims about it.

JSON payloads are modelled by `ZApi.JValue`; Python dicts by association
lists `ZApi.JObject` with first-binding-wins lookup (Python dict keys are
unique, so this is faithful).  Python code that can raise is modelled with
`Except`: `PyError.attributeError` stands for the `AttributeError` raised
when `.get` is invoked on a non-dict value, `PyError.typeError` for the
`TypeError` described below, and `ValidationError` for the library's own
validation failures.  Since Python is dynamically typed and `dict.get`
simply returns whatever value is stored, the dataclass fields are
`JValue`-typed in the model.

A load-bearing fact of the source: in every variant parser the call
`base = super().from_dict(data)` binds `cls` to the *subclass*, so `base`
already carries the subtype fields (at their defaults), and the spread
`cls(**{k: v for k, v in base.__dict__.items() if not k.startswith('_')},
message=..., ...)` duplicates those keywords, raising `TypeError: got
multiple values for keyword argument ...` on every payload that reaches
the constructor call (keyword values are evaluated first, so a non-dict
sub-value raises `AttributeError` even earlier).  Hence the variant
parsers never return a message; only the Base fallback does.
-/

namespace ZApi

/-- A JSON value as produced by deserialising a webhook payload. -/
inductive JValue where
  | null
  | bool (b : Bool)
  | num (n : Int)
  | str (s : String)
  | arr (elems : List JValue)
  | obj (fields : List (String × JValue))
deriving Repr

mutual

/-- Decidable equality for `JValue` (the derive handler does not support
this nested inductive). -/
def JValue.decEq : (a b : JValue) → Decidable (a = b)
  | .null, .null => .isTrue rfl
  | .bool a, .bool b =>
    if h : a = b then .isTrue (h ▸ rfl)
    else .isFalse (fun hh => h (JValue.bool.inj hh))
  | .num a, .num b =>
    if h : a = b then .isTrue (h ▸ rfl)
    else .isFalse (fun hh => h (JValue.num.inj hh))
  | .str a, .str b =>
    if h : a = b then .isTrue (h ▸ rfl)
    else .isFalse (fun hh => h (JValue.str.inj hh))
  | .arr xs, .arr ys =>
    match JValue.decEqList xs ys with
    | .isTrue h => .isTrue (h ▸ rfl)
    | .isFalse h => .isFalse (fun hh => h (JValue.arr.inj hh))
  | .obj fs, .obj gs =>
    match JValue.decEqFields fs gs with
    | .isTrue h => .isTrue (h ▸ rfl)
    | .isFalse h => .isFalse (fun hh => h (JValue.obj.inj hh))
  | .null, .bool _ | .null, .num _ | .null, .str _ | .null, .arr _ | .null, .obj _
  | .bool _, .null | .bool _, .num _ | .bool _, .str _ | .bool _, .arr _ | .bool _, .obj _
  | .num _, .null | .num _, .bool _ | .num _, .str _ | .num _, .arr _ | .num _, .obj _
  | .str _, .null | .str _, .bool _ | .str _, .num _ | .str _, .arr _ | .str _, .obj _
  | .arr _, .null | .arr _, .bool _ | .arr _, .num _ | .arr _, .str _ | .arr _, .obj _
  | .obj _, .null | .obj _, .bool _ | .obj _, .num _ | .obj _, .str _ | .obj _, .arr _ =>
    .isFalse (fun h => nomatch h)

def JValue.decEqList : (xs ys : List JValue) → Decidable (xs = ys)
  | [], [] => .isTrue rfl
  | [], _ :: _ => .isFalse (fun h => nomatch h)
  | _ :: _, [] => .isFalse (fun h => nomatch h)
  | x :: xs, y :: ys =>
    match JValue.decEq x y, JValue.decEqList xs ys with
    | .isTrue h1, .isTrue h2 => .isTrue (by rw [h1, h2])
    | .isFalse h1, _ => .isFalse (fun h => h1 (List.cons.inj h).1)
    | _, .isFalse h2 => .isFalse (fun h => h2 (List.cons.inj h).2)

def JValue.decEqFields : (xs ys : List (String × JValue)) → Decidable (xs = ys)
  | [], [] => .isTrue rfl
  | [], _ :: _ => .isFalse (fun h => nomatch h)
  | _ :: _, [] => .isFalse (fun h => nomatch h)
  | (k1, v1) :: xs, (k2, v2) :: ys =>
    if hk : k1 = k2 then
      match JValue.decEq v1 v2, JValue.decEqFields xs ys with
      | .isTrue hv, .isTrue ht => .isTrue (by rw [hk, hv, ht])
      | .isFalse hv, _ =>
        .isFalse (fun h => hv (congrArg Prod.snd (List.cons.inj h).1))
      | _, .isFalse ht => .isFalse (fun h => ht (List.cons.inj h).2)
    else .isFalse (fun h => hk (congrArg Prod.fst (List.cons.inj h).1))

end

instance : DecidableEq JValue := JValue.decEq

/-- A Python dict with string keys, as an association list (keys unique,
first binding wins on lookup). -/
abbrev JObject := List (String × JValue)

/-- Key lookup in a dict. -/
def dictLookup : JObject → String → Option JValue
  | [], _ => none
  | (k, v) :: rest, key => if k = key then some v else dictLookup rest key

/-- Python `key in data`. -/
def dictContains (d : JObject) (k : String) : Bool :=
  (dictLookup d k).isSome

/-- Python `data.get(key, default)`. -/
def dictGet (d : JObject) (k : String) (dflt : JValue) : JValue :=
  (dictLookup d k).getD dflt

/-- Python `data.get(key)` (missing keys give `None`). -/
def dictGetN (d : JObject) (k : String) : JValue :=
  dictGet d k .null

/-- Python truthiness of a JSON value. -/
def truthy : JValue → Bool
  | .null => false
  | .bool b => b
  | .num n => n ≠ 0
  | .str s => ¬ s.isEmpty
  | .arr xs => ¬ xs.isEmpty
  | .obj fs => ¬ fs.isEmpty

/-- Python `a or b` (returns `a` when truthy, else `b`). -/
def pyOr (a b : JValue) : JValue :=
  if truthy a then a else b

/-- Exceptions the parsing code can raise: calling `.get` on a value
that is not a dict raises `AttributeError`; the duplicate-keyword spread
in every variant constructor raises `TypeError`. -/
inductive PyError where
  | attributeError
  | typeError
deriving Repr, DecidableEq

/-- Model of `data.get(key, {})` followed by use of the result as a dict:
missing key gives the empty dict, a dict value gives its fields, and any
other value raises `AttributeError` at the first `.get` on it. -/
def getSubObj (d : JObject) (k : String) : Except PyError JObject :=
  match dictLookup d k with
  | none => .ok []
  | some (.obj fs) => .ok fs
  | some _ => .error .attributeError

instance {ε α : Type} [DecidableEq ε] [DecidableEq α] : DecidableEq (Except ε α) := fun a b =>
  match a, b with
  | .ok x, .ok y =>
    if h : x = y then .isTrue (h ▸ rfl) else .isFalse (fun hh => h (Except.ok.inj hh))
  | .error x, .error y =>
    if h : x = y then .isTrue (h ▸ rfl) else .isFalse (fun hh => h (Except.error.inj hh))
  | .ok _, .error _ => .isFalse (fun h => nomatch h)
  | .error _, .ok _ => .isFalse (fun h => nomatch h)

/-- Envelope fields shared by all webhook messages
(`BaseWebhookMessage` in `message.py`).  Fields are `JValue`-typed
because Python stores whatever the payload holds; `raw` models `_raw`. -/
structure BaseWebhookMessage where
  message_id : JValue
  instance_id : JValue
  phone : JValue
  from_me : JValue
  moment : JValue
  status : JValue
  type : JValue
  chat_name : JValue
  is_group : JValue
  is_newsletter : JValue
  is_status_reply : JValue
  sender_name : JValue
  sender_photo : JValue
  sender_lid : JValue
  photo : JValue
  participant_phone : JValue
  participant_lid : JValue
  connected_phone : JValue
  waiting_message : JValue
  is_edit : JValue
  broadcast : JValue
  forwarded : JValue
  from_api : JValue
  reference_message_id : JValue
  message_expiration_seconds : JValue
  raw : JObject
deriving Repr, DecidableEq

/-- Model of `BaseWebhookMessage.from_dict`. -/
def BaseWebhookMessage.from_dict (data : JObject) : BaseWebhookMessage where
  message_id := dictGet data "messageId" (.str "")
  instance_id := dictGet data "instanceId" (.str "")
  phone := dictGet data "phone" (.str "")
  from_me := dictGet data "fromMe" (.bool false)
  moment := dictGet data "momment" (dictGet data "moment" (.num 0))
  status := dictGet data "status" (.str "UNKNOWN")
  type := dictGet data "type" (.str "ReceivedCallback")
  chat_name := dictGetN data "chatName"
  is_group := dictGet data "isGroup" (.bool false)
  is_newsletter := dictGet data "isNewsletter" (.bool false)
  is_status_reply := dictGet data "isStatusReply" (.bool false)
  sender_name := dictGetN data "senderName"
  sender_photo := dictGetN data "senderPhoto"
  sender_lid := dictGetN data "senderLid"
  photo := dictGetN data "photo"
  participant_phone := dictGetN data "participantPhone"
  participant_lid := dictGetN data "participantLid"
  connected_phone := dictGetN data "connectedPhone"
  waiting_message := dictGet data "waitingMessage" (.bool false)
  is_edit := dictGet data "isEdit" (.bool false)
  broadcast := dictGet data "broadcast" (.bool false)
  forwarded := dictGet data "forwarded" (.bool false)
  from_api := dictGet data "fromApi" (.bool false)
  reference_message_id := dictGetN data "referenceMessageId"
  message_expiration_seconds := dictGetN data "messageExpirationSeconds"
  raw := data

/-- Model of `TextMessage`: envelope plus the fields read from the `text` sub-dict. -/
structure TextMessage where
  base : BaseWebhookMessage
  message : JValue
  description : JValue
  title : JValue
  url : JValue
  thumbnail_url : JValue
deriving Repr, DecidableEq

/-- Model of `TextMessage.from_dict`.  `super().from_dict(data)` binds
`cls` to `TextMessage`, so `base.__dict__` already contains the subtype
fields and the keyword spread `cls(**{k: v ...}, ...)` always raises
`TypeError`; its keyword values are evaluated first, so a non-dict
`text` value raises `AttributeError` at the sub-dict `.get` before
that.  No `TextMessage` is ever constructed. -/
def TextMessage.from_dict (data : JObject) : Except PyError TextMessage :=
  match getSubObj data "text" with
  | .error e => .error e
  | .ok _ => .error .typeError

/-- Model of `ImageMessage`. -/
structure ImageMessage where
  base : BaseWebhookMessage
  image_url : JValue
  thumbnail_url : JValue
  caption : JValue
  mime_type : JValue
  width : JValue
  height : JValue
  view_once : JValue
deriving Repr, DecidableEq

/-- Model of `ImageMessage.from_dict`.  `super().from_dict(data)` binds
`cls` to `ImageMessage`, so `base.__dict__` already contains the subtype
fields and the keyword spread `cls(**{k: v ...}, ...)` always raises
`TypeError`; its keyword values are evaluated first, so a non-dict
`image` value raises `AttributeError` at the sub-dict `.get` before
that.  No `ImageMessage` is ever constructed. -/
def ImageMessage.from_dict (data : JObject) : Except PyError ImageMessage :=
  match getSubObj data "image" with
  | .error e => .error e
  | .ok _ => .error .typeError

/-- Model of `VideoMessage`. -/
structure VideoMessage where
  base : BaseWebhookMessage
  video_url : JValue
  caption : JValue
  mime_type : JValue
  seconds : JValue
  view_once : JValue
deriving Repr, DecidableEq

/-- Model of `VideoMessage.from_dict`.  `super().from_dict(data)` binds
`cls` to `VideoMessage`, so `base.__dict__` already contains the subtype
fields and the keyword spread `cls(**{k: v ...}, ...)` always raises
`TypeError`; its keyword values are evaluated first, so a non-dict
`video` value raises `AttributeError` at the sub-dict `.get` before
that.  No `VideoMessage` is ever constructed. -/
def VideoMessage.from_dict (data : JObject) : Except PyError VideoMessage :=
  match getSubObj data "video" with
  | .error e => .error e
  | .ok _ => .error .typeError

/-- Model of `AudioMessage`. -/
structure AudioMessage where
  base : BaseWebhookMessage
  audio_url : JValue
  mime_type : JValue
  seconds : JValue
  ptt : JValue
  view_once : JValue
deriving Repr, DecidableEq

/-- Model of `AudioMessage.from_dict`.  `super().from_dict(data)` binds
`cls` to `AudioMessage`, so `base.__dict__` already contains the subtype
fields and the keyword spread `cls(**{k: v ...}, ...)` always raises
`TypeError`; its keyword values are evaluated first, so a non-dict
`audio` value raises `AttributeError` at the sub-dict `.get` before
that.  No `AudioMessage` is ever constructed. -/
def AudioMessage.from_dict (data : JObject) : Except PyError AudioMessage :=
  match getSubObj data "audio" with
  | .error e => .error e
  | .ok _ => .error .typeError

/-- Model of `DocumentMessage`. -/
structure DocumentMessage where
  base : BaseWebhookMessage
  document_url : JValue
  file_name : JValue
  title : JValue
  page_count : JValue
  mime_type : JValue
  thumbnail_url : JValue
deriving Repr, DecidableEq

/-- Model of `DocumentMessage.from_dict`.  `super().from_dict(data)` binds
`cls` to `DocumentMessage`, so `base.__dict__` already contains the subtype
fields and the keyword spread `cls(**{k: v ...}, ...)` always raises
`TypeError`; its keyword values are evaluated first, so a non-dict
`document` value raises `AttributeError` at the sub-dict `.get` before
that.  No `DocumentMessage` is ever constructed. -/
def DocumentMessage.from_dict (data : JObject) : Except PyError DocumentMessage :=
  match getSubObj data "document" with
  | .error e => .error e
  | .ok _ => .error .typeError

/-- Model of `StickerMessage`. -/
structure StickerMessage where
  base : BaseWebhookMessage
  sticker_url : JValue
  mime_type : JValue
deriving Repr, DecidableEq

/-- Model of `StickerMessage.from_dict`.  `super().from_dict(data)` binds
`cls` to `StickerMessage`, so `base.__dict__` already contains the subtype
fields and the keyword spread `cls(**{k: v ...}, ...)` always raises
`TypeError`; its keyword values are evaluated first, so a non-dict
`sticker` value raises `AttributeError` at the sub-dict `.get` before
that.  No `StickerMessage` is ever constructed. -/
def StickerMessage.from_dict (data : JObject) : Except PyError StickerMessage :=
  match getSubObj data "sticker" with
  | .error e => .error e
  | .ok _ => .error .typeError

/-- Model of `LocationMessage` (the `0.0` float defaults are represented as the
number 0). -/
structure LocationMessage where
  base : BaseWebhookMessage
  latitude : JValue
  longitude : JValue
  name : JValue
  address : JValue
  url : JValue
  thumbnail_url : JValue
deriving Repr, DecidableEq

/-- Model of `LocationMessage.from_dict`.  `super().from_dict(data)` binds
`cls` to `LocationMessage`, so `base.__dict__` already contains the subtype
fields and the keyword spread `cls(**{k: v ...}, ...)` always raises
`TypeError`; its keyword values are evaluated first, so a non-dict
`location` value raises `AttributeError` at the sub-dict `.get` before
that.  No `LocationMessage` is ever constructed. -/
def LocationMessage.from_dict (data : JObject) : Except PyError LocationMessage :=
  match getSubObj data "location" with
  | .error e => .error e
  | .ok _ => .error .typeError

/-- Model of `ContactMessage`. -/
structure ContactMessage where
  base : BaseWebhookMessage
  display_name : JValue
  vcard : JValue
deriving Repr, DecidableEq

/-- Model of `ContactMessage.from_dict`.  `super().from_dict(data)` binds
`cls` to `ContactMessage`, so `base.__dict__` already contains the subtype
fields and the keyword spread `cls(**{k: v ...}, ...)` always raises
`TypeError`; its keyword values are evaluated first, so a non-dict
`contact` value raises `AttributeError` at the sub-dict `.get` before
that.  No `ContactMessage` is ever constructed. -/
def ContactMessage.from_dict (data : JObject) : Except PyError ContactMessage :=
  match getSubObj data "contact" with
  | .error e => .error e
  | .ok _ => .error .typeError

/-- Model of `ReferencedMessage` (reaction target info). -/
structure ReferencedMessage where
  message_id : JValue
  from_me : JValue
  phone : JValue
  participant : JValue
deriving Repr, DecidableEq

/-- Model of `ReactionMessage`. -/
structure ReactionMessage where
  base : BaseWebhookMessage
  emoji : JValue
  reaction_time : JValue
  reaction_by : JValue
  referenced_message : Option ReferencedMessage
deriving Repr, DecidableEq

/-- Model of `ReactionMessage.from_dict`.  The walrus
`if ref_data := reaction_data.get('referencedMessage'):` runs before the
constructor call: a non-dict `reaction` value raises `AttributeError`
there, and a truthy non-dict `referencedMessage` raises `AttributeError`
at `ref_data.get`.  In every remaining case the duplicate-keyword spread
`cls(**{k: v ...}, emoji=..., ...)` raises `TypeError`, so no
`ReactionMessage` is ever constructed. -/
def ReactionMessage.from_dict (data : JObject) : Except PyError ReactionMessage :=
  match getSubObj data "reaction" with
  | .error e => .error e
  | .ok rd =>
    if truthy (dictGetN rd "referencedMessage") then
      match dictGetN rd "referencedMessage" with
      | .obj _ => .error .typeError
      | _ => .error .attributeError
    else .error .typeError

/-- The union `WebhookMessage` of all message variants. -/
inductive WebhookMessage where
  | text (m : TextMessage)
  | image (m : ImageMessage)
  | video (m : VideoMessage)
  | audio (m : AudioMessage)
  | document (m : DocumentMessage)
  | sticker (m : StickerMessage)
  | location (m : LocationMessage)
  | contact (m : ContactMessage)
  | reaction (m : ReactionMessage)
  | base (m : BaseWebhookMessage)
deriving Repr, DecidableEq

/-- The `_raw` dict of whichever variant a message is. -/
def WebhookMessage.rawOf : WebhookMessage → JObject
  | .text m => m.base.raw
  | .image m => m.base.raw
  | .video m => m.base.raw
  | .audio m => m.base.raw
  | .document m => m.base.raw
  | .sticker m => m.base.raw
  | .location m => m.base.raw
  | .contact m => m.base.raw
  | .reaction m => m.base.raw
  | .base m => m.raw

/-- Model of `parse_webhook_message` from `webhook.py`: first-match-wins dispatch
on the presence of the discriminator keys, in source order. -/
def parse_webhook_message (payload : JObject) : Except PyError WebhookMessage :=
  if dictContains payload "reaction" then (ReactionMessage.from_dict payload).map .reaction
  else if dictContains payload "text" then (TextMessage.from_dict payload).map .text
  else if dictContains payload "image" then (ImageMessage.from_dict payload).map .image
  else if dictContains payload "video" then (VideoMessage.from_dict payload).map .video
  else if dictContains payload "audio" then (AudioMessage.from_dict payload).map .audio
  else if dictContains payload "document" then (DocumentMessage.from_dict payload).map .document
  else if dictContains payload "sticker" then (StickerMessage.from_dict payload).map .sticker
  else if dictContains payload "location" then (LocationMessage.from_dict payload).map .location
  else if dictContains payload "contact" then (ContactMessage.from_dict payload).map .contact
  else .ok (.base (BaseWebhookMessage.from_dict payload))

/-- Validation failures raised by `_helpers.py`. -/
inductive ValidationError where
  | emptyPhone
  | phoneTooShort (digits : String)
deriving Repr, DecidableEq

/-- Codepoint ranges (inclusive) of the characters Python's `re` module
matches with `\d` on `str` patterns — the Unicode decimal digits,
category Nd, as tabulated by CPython's Unicode database.
`re.sub(r'\D', '', s)` keeps exactly these characters. -/
def pyDigitRanges : List (Nat × Nat) :=
  [(0x30, 0x39), (0x660, 0x669), (0x6F0, 0x6F9), (0x7C0, 0x7C9),
   (0x966, 0x96F), (0x9E6, 0x9EF), (0xA66, 0xA6F), (0xAE6, 0xAEF),
   (0xB66, 0xB6F), (0xBE6, 0xBEF), (0xC66, 0xC6F), (0xCE6, 0xCEF),
   (0xD66, 0xD6F), (0xDE6, 0xDEF), (0xE50, 0xE59), (0xED0, 0xED9),
   (0xF20, 0xF29), (0x1040, 0x1049), (0x1090, 0x1099), (0x17E0, 0x17E9),
   (0x1810, 0x1819), (0x1946, 0x194F), (0x19D0, 0x19D9), (0x1A80, 0x1A89),
   (0x1A90, 0x1A99), (0x1B50, 0x1B59), (0x1BB0, 0x1BB9), (0x1C40, 0x1C49),
   (0x1C50, 0x1C59), (0xA620, 0xA629), (0xA8D0, 0xA8D9), (0xA900, 0xA909),
   (0xA9D0, 0xA9D9), (0xA9F0, 0xA9F9), (0xAA50, 0xAA59), (0xABF0, 0xABF9),
   (0xFF10, 0xFF19), (0x104A0, 0x104A9), (0x10D30, 0x10D39), (0x11066, 0x1106F),
   (0x110F0, 0x110F9), (0x11136, 0x1113F), (0x111D0, 0x111D9), (0x112F0, 0x112F9),
   (0x11450, 0x11459), (0x114D0, 0x114D9), (0x11650, 0x11659), (0x116C0, 0x116C9),
   (0x11730, 0x11739), (0x118E0, 0x118E9), (0x11950, 0x11959), (0x11C50, 0x11C59),
   (0x11D50, 0x11D59), (0x11DA0, 0x11DA9), (0x16A60, 0x16A69), (0x16AC0, 0x16AC9),
   (0x16B50, 0x16B59), (0x1D7CE, 0x1D7FF), (0x1E140, 0x1E149), (0x1E2F0, 0x1E2F9),
   (0x1E950, 0x1E959), (0x1FBF0, 0x1FBF9)]

/-- Whether `re.sub(r'\D', '', ...)` keeps a character: it is a Unicode
decimal digit. -/
def isPyDigit (c : Char) : Bool :=
  pyDigitRanges.any (fun r => r.1 ≤ c.toNat && c.toNat ≤ r.2)

/-- Model of `format_phone` from `_helpers.py` on a string argument: keep
only the digit characters (Unicode decimal digits, per `re.sub(r'\D',
'', ...)`), then validate. -/
def format_phone (phone : String) : Except ValidationError String :=
  if (phone.data.filter isPyDigit).isEmpty then .error .emptyPhone
  else if (phone.data.filter isPyDigit).length < 10 then
    .error (.phoneTooShort (String.mk (phone.data.filter isPyDigit)))
  else .ok (String.mk (phone.data.filter isPyDigit))

/-- Model of `format_phone` on an integer argument: Python's `str(phone)` first. -/
def format_phone_int (phone : Int) : Except ValidationError String :=
  format_phone (toString phone)

/-- Python's substring test `needle in hay` on character lists. -/
def containsSub (needle : List Char) : List Char → Bool
  | [] => needle.isEmpty
  | c :: t => needle.isPrefixOf (c :: t) || containsSub needle t

/-- Model of `is_group_id` from `_helpers.py`.  `'-group' in chat_id` is substring
containment; `chat_id.endswith('-group')` is a suffix test. -/
def is_group_id (chat_id : String) : Bool :=
  containsSub "-group".data chat_id.data ||
    (chat_id.data.contains '-' &&
      !("-group".data.isSuffixOf chat_id.data) &&
      !(chat_id.data.contains '@'))

/-- Success condition of `parse_webhook_message`: the program returns a
message exactly when the payload contains none of the nine discriminator
keys, since every variant constructor raises `TypeError` (and a non-dict
discriminator value raises `AttributeError` even earlier). -/
def payloadParses (d : JObject) : Bool :=
  !(dictContains d "reaction" || dictContains d "text" || dictContains d "image" ||
    dictContains d "video" || dictContains d "audio" || dictContains d "document" ||
    dictContains d "sticker" || dictContains d "location" || dictContains d "contact")

section Lemmas

/-- Mapping over `Except.map` does not change success. -/
theorem isOk_map {ε α β : Type} (f : α → β) (e : Except ε α) :
    (e.map f).isOk = e.isOk := by
  cases e <;> rfl

/-- Boolean `List.contains` agrees with membership. -/
theorem contains_iff_mem {α : Type} [DecidableEq α] (l : List α) (a : α) :
    l.contains a = true ↔ a ∈ l := by
  induction l with
  | nil => simp
  | cons x t ih => simp [List.contains] at ih ⊢

/-- The substring scan `containsSub` decides `List.IsInfix`. -/
theorem containsSub_correct (needle hay : List Char) :
    containsSub needle hay = true ↔ needle <:+: hay := by
  induction hay with
  | nil =>
    simp [containsSub, List.isEmpty_iff]
  | cons c t ih =>
    simp [containsSub, List.infix_cons_iff, ih]

end Lemmas

section VariantLemmas

/-- The parser `ReactionMessage.from_dict` fails on every payload (the
constructor raises; a truthy non-dict `referencedMessage` raises even
earlier). -/
theorem from_dict_fails_reaction (d : JObject) :
    (ReactionMessage.from_dict d).isOk = false := by
  unfold ReactionMessage.from_dict
  split
  · rfl
  · split
    · split <;> rfl
    · rfl

/-- The parser `TextMessage.from_dict` fails on every payload (the
constructor raises). -/
theorem from_dict_fails_text (d : JObject) :
    (TextMessage.from_dict d).isOk = false := by
  unfold TextMessage.from_dict
  split <;> rfl

/-- The parser `ImageMessage.from_dict` fails on every payload (the
constructor raises). -/
theorem from_dict_fails_image (d : JObject) :
    (ImageMessage.from_dict d).isOk = false := by
  unfold ImageMessage.from_dict
  split <;> rfl

/-- The parser `VideoMessage.from_dict` fails on every payload (the
constructor raises). -/
theorem from_dict_fails_video (d : JObject) :
    (VideoMessage.from_dict d).isOk = false := by
  unfold VideoMessage.from_dict
  split <;> rfl

/-- The parser `AudioMessage.from_dict` fails on every payload (the
constructor raises). -/
theorem from_dict_fails_audio (d : JObject) :
    (AudioMessage.from_dict d).isOk = false := by
  unfold AudioMessage.from_dict
  split <;> rfl

/-- The parser `DocumentMessage.from_dict` fails on every payload (the
constructor raises). -/
theorem from_dict_fails_document (d : JObject) :
    (DocumentMessage.from_dict d).isOk = false := by
  unfold DocumentMessage.from_dict
  split <;> rfl

/-- The parser `StickerMessage.from_dict` fails on every payload (the
constructor raises). -/
theorem from_dict_fails_sticker (d : JObject) :
    (StickerMessage.from_dict d).isOk = false := by
  unfold StickerMessage.from_dict
  split <;> rfl

/-- The parser `LocationMessage.from_dict` fails on every payload (the
constructor raises). -/
theorem from_dict_fails_location (d : JObject) :
    (LocationMessage.from_dict d).isOk = false := by
  unfold LocationMessage.from_dict
  split <;> rfl

/-- The parser `ContactMessage.from_dict` fails on every payload (the
constructor raises). -/
theorem from_dict_fails_contact (d : JObject) :
    (ContactMessage.from_dict d).isOk = false := by
  unfold ContactMessage.from_dict
  split <;> rfl

end VariantLemmas

/-- C5 (amended): `is_group_id` returns true iff the id **contains** the
substring "-group", or it contains a hyphen, does not **end** with
"-group", and contains no "@"; the three spec examples hold. -/
theorem is_group_id_spec (s : String) :
    (is_group_id s = true ↔
      ("-group".data <:+: s.data ∨
        ('-' ∈ s.data ∧ ¬ ("-group".data <:+ s.data) ∧ '@' ∉ s.data)))
  ∧ is_group_id "120363019502650977-group" = true
  ∧ is_group_id "5511999999999-1234567890" = true
  ∧ is_group_id "5511999999999" = false := by
  refine ⟨?_, by decide, by decide, by decide⟩
  have hs : ("-group".data.isSuffixOf s.data = false) ↔ ¬ ("-group".data <:+ s.data) := by
    rw [Bool.eq_false_iff]
    exact not_congr List.isSuffixOf_iff_suffix
  have hc : (s.data.contains '@' = false) ↔ '@' ∉ s.data := by
    rw [Bool.eq_false_iff]
    exact not_congr (contains_iff_mem _ _)
  simp only [is_group_id, Bool.or_eq_true, Bool.and_eq_true, Bool.not_eq_eq_eq_not,
    Bool.not_true, containsSub_correct, contains_iff_mem, hs, hc]
  tauto

/-- C5 counterexample: on "1-group@c.us" the code returns true, yet the
id does not end with "-group" and contains "@", so the claimed
characterisation (which demands an "-group" **suffix** in its first
disjunct) evaluates to false there. -/
theorem is_group_id_spec_cex :
    is_group_id "1-group@c.us" = true ∧
    ¬ ("-group".data <:+ "1-group@c.us".data) ∧
    '@' ∈ "1-group@c.us".data := by
  refine ⟨by decide, by decide, by decide⟩

/-- C6: `format_phone` keeps exactly the digit characters of its input
(Unicode decimal digits, the characters Python's `\d` matches), in
order; it fails with a `ValidationError` iff fewer than 10 digits
remain (in particular on empty and whitespace-only input); an
already-digits-only input of length ≥ 10 is returned unchanged — also
for non-ASCII digits such as Arabic-Indic ones; and the spec's concrete
examples hold, including the integer-argument one. -/
theorem format_phone_spec (s : String) :
    ((format_phone s).isOk = true ↔ 10 ≤ (s.data.filter isPyDigit).length)
  ∧ (∀ r, format_phone s = .ok r → r = String.mk (s.data.filter isPyDigit))
  ∧ (s.data.all isPyDigit = true → 10 ≤ s.data.length → format_phone s = .ok s)
  ∧ format_phone "+55 11 99999-9999" = .ok "5511999999999"
  ∧ format_phone_int 5511999999999 = .ok "5511999999999"
  ∧ format_phone "" = .error .emptyPhone
  ∧ format_phone "   " = .error .emptyPhone
  ∧ format_phone "٣٣٣٣٣٣٣٣٣٣" = .ok "٣٣٣٣٣٣٣٣٣٣" := by
  refine ⟨?_, ?_, ?_, by decide, by decide, by decide, by decide, by decide⟩
  · unfold format_phone
    rcases h : s.data.filter isPyDigit with _ | ⟨c, t⟩
    · simp [h, Except.isOk, Except.toBool]
    · simp only [List.isEmpty_cons, Bool.false_eq_true, if_false]
      split
      · rename_i hlt
        simp only [List.length_cons] at hlt
        simp [Except.isOk, Except.toBool]
        omega
      · rename_i hge
        simp only [List.length_cons, not_lt] at hge
        simp [Except.isOk, Except.toBool]
        omega
  · intro r hr
    unfold format_phone at hr
    split at hr
    · exact absurd hr (by simp)
    · split at hr
      · exact absurd hr (by simp)
      · exact (Except.ok.inj hr).symm
  · intro hdig hlen
    have hf : s.data.filter isPyDigit = s.data :=
      List.filter_eq_self.mpr (by simpa [List.all_eq_true] using hdig)
    have hne : s.data.isEmpty = false := by
      rcases h : s.data with _ | _
      · rw [h] at hlen; simp at hlen
      · rfl
    unfold format_phone
    rw [hf, hne]
    simp only [Bool.false_eq_true, if_false]
    rw [if_neg (by omega)]

/-- C6 witness: concrete instantiations discharging the hypotheses of
`format_phone_spec`. -/
theorem format_phone_spec_witness :
    ("1234567890" : String) = String.mk ("a1b2c3d4e5f6g7h8i9j0".data.filter isPyDigit) ∧
    format_phone "5511999999999" = .ok "5511999999999" :=
  ⟨(format_phone_spec "a1b2c3d4e5f6g7h8i9j0").2.1 "1234567890" (by decide),
   (format_phone_spec "5511999999999").2.2.1 (by decide) (by decide)⟩

/-- C2 (code bug): the dispatcher does check `reaction` first — with a
dict-valued `reaction` and a string-valued `text` the failure is the
reaction constructor's `TypeError`, not the `AttributeError` the text
branch would have raised — but `ReactionMessage.from_dict` raises
`TypeError` on every payload, so a Reaction variant is never returned,
contradicting the claim, the module docstring and the repository's own
`test_parse_reaction_message`. -/
theorem parse_reaction_never_returns :
    parse_webhook_message
        [("reaction", JValue.obj [("value", JValue.str "x")]), ("text", JValue.str "hi")]
      = .error .typeError := by decide

/-- C8 (amended): a payload with none of the nine discriminator keys
parses to the Base variant built by `BaseWebhookMessage.from_dict` from
the envelope fields alone, and only such payloads produce a message:
when any discriminator key is present the selected variant constructor
raises, so classification never produces a non-Base variant. -/
theorem parse_fallback_base (d : JObject) :
    ((dictContains d "reaction" = false ∧ dictContains d "text" = false ∧
      dictContains d "image" = false ∧ dictContains d "video" = false ∧
      dictContains d "audio" = false ∧ dictContains d "document" = false ∧
      dictContains d "sticker" = false ∧ dictContains d "location" = false ∧
      dictContains d "contact" = false) →
      parse_webhook_message d = .ok (.base (BaseWebhookMessage.from_dict d)))
  ∧ ((dictContains d "reaction" || dictContains d "text" || dictContains d "image" ||
      dictContains d "video" || dictContains d "audio" || dictContains d "document" ||
      dictContains d "sticker" || dictContains d "location" ||
      dictContains d "contact") = true →
      (parse_webhook_message d).isOk = false) := by
  constructor
  · rintro ⟨f1, f2, f3, f4, f5, f6, f7, f8, f9⟩
    simp [parse_webhook_message, f1, f2, f3, f4, f5, f6, f7, f8, f9]
  · intro hk
    unfold parse_webhook_message
    cases h1 : dictContains d "reaction"
    · cases h2 : dictContains d "text"
      · cases h3 : dictContains d "image"
        · cases h4 : dictContains d "video"
          · cases h5 : dictContains d "audio"
            · cases h6 : dictContains d "document"
              · cases h7 : dictContains d "sticker"
                · cases h8 : dictContains d "location"
                  · cases h9 : dictContains d "contact"
                    · simp [h1, h2, h3, h4, h5, h6, h7, h8, h9] at hk
                    · simp [h1, h2, h3, h4, h5, h6, h7, h8, h9, isOk_map, from_dict_fails_contact]
                  · simp [h1, h2, h3, h4, h5, h6, h7, h8, isOk_map, from_dict_fails_location]
                · simp [h1, h2, h3, h4, h5, h6, h7, isOk_map, from_dict_fails_sticker]
              · simp [h1, h2, h3, h4, h5, h6, isOk_map, from_dict_fails_document]
            · simp [h1, h2, h3, h4, h5, isOk_map, from_dict_fails_audio]
          · simp [h1, h2, h3, h4, isOk_map, from_dict_fails_video]
        · simp [h1, h2, h3, isOk_map, from_dict_fails_image]
      · simp [h1, h2, isOk_map, from_dict_fails_text]
    · simp [h1, isOk_map, from_dict_fails_reaction]

/-- C8 counterexample: the payload `{"text": {}}` selects the Text branch
yet produces no variant at all (the constructor raises `TypeError`),
falsifying the clause that classification always produces exactly one
variant. -/
theorem parse_discriminator_no_variant_cex :
    parse_webhook_message [("text", JValue.obj [])] = .error .typeError := by decide

/-- C8 witness: a bare envelope payload falls through to the Base
variant, and a payload with a discriminator key produces no message. -/
theorem parse_fallback_base_witness :
    parse_webhook_message [("phone", JValue.str "5511999999999")]
      = .ok (.base (BaseWebhookMessage.from_dict [("phone", JValue.str "5511999999999")])) ∧
    (parse_webhook_message [("sticker", JValue.obj [])]).isOk = false :=
  ⟨(parse_fallback_base [("phone", JValue.str "5511999999999")]).1
      ⟨by decide, by decide, by decide, by decide, by decide, by decide, by decide,
       by decide, by decide⟩,
   (parse_fallback_base [("sticker", JValue.obj [])]).2 (by decide)⟩

/-- C9: a payload without a `status` key gets status "UNKNOWN" and one
without a `type` key gets type "ReceivedCallback", while the other
missing string envelope fields default to "" (e.g. `messageId`) or
`None` (e.g. `chatName`). -/
theorem missing_status_type_defaults (d : JObject) :
    (dictLookup d "status" = none →
      (BaseWebhookMessage.from_dict d).status = .str "UNKNOWN")
  ∧ (dictLookup d "type" = none →
      (BaseWebhookMessage.from_dict d).type = .str "ReceivedCallback")
  ∧ (dictLookup d "messageId" = none →
      (BaseWebhookMessage.from_dict d).message_id = .str "")
  ∧ (dictLookup d "chatName" = none →
      (BaseWebhookMessage.from_dict d).chat_name = .null) := by
  refine ⟨fun h => ?_, fun h => ?_, fun h => ?_, fun h => ?_⟩ <;>
    simp [BaseWebhookMessage.from_dict, dictGet, dictGetN, h]

/-- C9 witness: the empty payload exhibits all four defaults. -/
theorem missing_status_type_defaults_witness :
    (BaseWebhookMessage.from_dict []).status = .str "UNKNOWN" ∧
    (BaseWebhookMessage.from_dict []).type = .str "ReceivedCallback" ∧
    (BaseWebhookMessage.from_dict []).message_id = .str "" ∧
    (BaseWebhookMessage.from_dict []).chat_name = .null :=
  ⟨(missing_status_type_defaults []).1 rfl,
   (missing_status_type_defaults []).2.1 rfl,
   (missing_status_type_defaults []).2.2.1 rfl,
   (missing_status_type_defaults []).2.2.2 rfl⟩

/-- C3 (amended): the envelope timestamp is read preferring the
**misspelled** key `momment` (the key the vendor actually emits),
falling back to the correctly spelled `moment` when `momment` is absent,
and defaulting to 0 when neither is present; with only one of the keys
present the parsed `moment` equals that key's value. -/
theorem moment_prefers_momment (d : JObject) :
    (∀ v, dictLookup d "momment" = some v →
      (BaseWebhookMessage.from_dict d).moment = v)
  ∧ (dictLookup d "momment" = none → ∀ v, dictLookup d "moment" = some v →
      (BaseWebhookMessage.from_dict d).moment = v)
  ∧ (dictLookup d "momment" = none → dictLookup d "moment" = none →
      (BaseWebhookMessage.from_dict d).moment = .num 0) := by
  refine ⟨fun v h => ?_, fun h v h2 => ?_, fun h h2 => ?_⟩ <;>
    simp [BaseWebhookMessage.from_dict, dictGet, h, *]

/-- C3 counterexample: with both keys present, the misspelled `momment`
wins, contradicting the claimed preference for `moment`. -/
theorem moment_prefers_momment_cex :
    (BaseWebhookMessage.from_dict
      [("moment", JValue.num 1632228638000), ("momment", JValue.num 9)]).moment
      = JValue.num 9 ∧
    JValue.num 9 ≠ JValue.num 1632228638000 := by
  refine ⟨by decide, by decide⟩

/-- C3 witness: each single-key payload from the spec's examples yields
that key's value. -/
theorem moment_prefers_momment_witness :
    (BaseWebhookMessage.from_dict
      [("momment", JValue.num 1632228638000)]).moment = JValue.num 1632228638000 ∧
    (BaseWebhookMessage.from_dict
      [("moment", JValue.num 1632228638000)]).moment = JValue.num 1632228638000 :=
  ⟨(moment_prefers_momment [("momment", JValue.num 1632228638000)]).1
      (JValue.num 1632228638000) (by decide),
   (moment_prefers_momment [("moment", JValue.num 1632228638000)]).2.1
      (by decide) (JValue.num 1632228638000) (by decide)⟩

/-- C4 (code bug): on the spec's own typo-example payload the Text
constructor raises `TypeError` (got multiple values for keyword
argument `message`, from the `base.__dict__` spread), so the payload is
never parsed as the Text variant and no `description` field is ever
produced, contradicting the claim and the repository's own
`test_api_typo_handling`. -/
theorem text_typo_payload_raises :
    parse_webhook_message
        [("text", JValue.obj
          [("message", JValue.str "Test"), ("descritpion", JValue.str "Typo in API")])]
      = .error .typeError := by decide

/-- C10 (code bug): the walrus truthiness logic does run — a truthy
non-dict `referencedMessage` raises `AttributeError` before the
constructor call — but the constructor then always raises `TypeError`,
so no `ReactionMessage`, and hence no `referenced_message` value, is
ever produced; the claim describes the intended result the repository's
tests expect. -/
theorem reaction_referenced_never_built :
    parse_webhook_message
        [("reaction", JValue.obj
          [("referencedMessage", JValue.obj [("messageId", JValue.str "M1")])])]
      = .error .typeError ∧
    parse_webhook_message
        [("reaction", JValue.obj [("referencedMessage", JValue.str "x")])]
      = .error .attributeError := by
  refine ⟨by decide, by decide⟩

/-- C7: whichever variant `parse_webhook_message` returns, its `_raw`
field is the original input dict, unchanged (parsing is a pure function
of the payload and retains it verbatim; in the program only the Base
fallback path ever returns a message, and on it `_raw` is the input). -/
theorem parse_preserves_raw (d : JObject) (m : WebhookMessage)
    (h : parse_webhook_message d = .ok m) : m.rawOf = d := by
  unfold parse_webhook_message at h
  split at h
  · have hok := congrArg Except.isOk h
    rw [isOk_map, from_dict_fails_reaction] at hok
    simp [Except.isOk, Except.toBool] at hok
  · split at h
    · have hok := congrArg Except.isOk h
      rw [isOk_map, from_dict_fails_text] at hok
      simp [Except.isOk, Except.toBool] at hok
    · split at h
      · have hok := congrArg Except.isOk h
        rw [isOk_map, from_dict_fails_image] at hok
        simp [Except.isOk, Except.toBool] at hok
      · split at h
        · have hok := congrArg Except.isOk h
          rw [isOk_map, from_dict_fails_video] at hok
          simp [Except.isOk, Except.toBool] at hok
        · split at h
          · have hok := congrArg Except.isOk h
            rw [isOk_map, from_dict_fails_audio] at hok
            simp [Except.isOk, Except.toBool] at hok
          · split at h
            · have hok := congrArg Except.isOk h
              rw [isOk_map, from_dict_fails_document] at hok
              simp [Except.isOk, Except.toBool] at hok
            · split at h
              · have hok := congrArg Except.isOk h
                rw [isOk_map, from_dict_fails_sticker] at hok
                simp [Except.isOk, Except.toBool] at hok
              · split at h
                · have hok := congrArg Except.isOk h
                  rw [isOk_map, from_dict_fails_location] at hok
                  simp [Except.isOk, Except.toBool] at hok
                · split at h
                  · have hok := congrArg Except.isOk h
                    rw [isOk_map, from_dict_fails_contact] at hok
                    simp [Except.isOk, Except.toBool] at hok
                  · simp at h
                    subst h
                    rfl

/-- C7 witness: a concrete text payload keeps its dict in `_raw`. -/
theorem parse_preserves_raw_witness :
    (WebhookMessage.base
        (BaseWebhookMessage.from_dict [("phone", JValue.str "5511999999999")])).rawOf
      = [("phone", JValue.str "5511999999999")] :=
  parse_preserves_raw [("phone", JValue.str "5511999999999")]
    (.base (BaseWebhookMessage.from_dict [("phone", JValue.str "5511999999999")]))
    (by decide)

/-- C1 (amended): `parse_webhook_message` returns a message exactly on
payloads containing none of the nine discriminator keys (the Base
fallback, where missing fields degrade to defaults); every payload with
a discriminator key raises instead — `TypeError` from the
duplicate-keyword spread in the subclass constructors, or
`AttributeError` first when the first-matched discriminator's value (or
a truthy `referencedMessage`) is not an object. -/
theorem parse_isOk_iff_payloadParses (d : JObject) :
    (parse_webhook_message d).isOk = payloadParses d := by
  unfold parse_webhook_message payloadParses
  cases h1 : dictContains d "reaction"
  · cases h2 : dictContains d "text"
    · cases h3 : dictContains d "image"
      · cases h4 : dictContains d "video"
        · cases h5 : dictContains d "audio"
          · cases h6 : dictContains d "document"
            · cases h7 : dictContains d "sticker"
              · cases h8 : dictContains d "location"
                · cases h9 : dictContains d "contact"
                  · simp [h1, h2, h3, h4, h5, h6, h7, h8, h9, Except.isOk, Except.toBool]
                  · simp [h1, h2, h3, h4, h5, h6, h7, h8, h9, isOk_map, from_dict_fails_contact]
                · simp [h1, h2, h3, h4, h5, h6, h7, h8, isOk_map, from_dict_fails_location]
              · simp [h1, h2, h3, h4, h5, h6, h7, isOk_map, from_dict_fails_sticker]
            · simp [h1, h2, h3, h4, h5, h6, isOk_map, from_dict_fails_document]
          · simp [h1, h2, h3, h4, h5, isOk_map, from_dict_fails_audio]
        · simp [h1, h2, h3, h4, isOk_map, from_dict_fails_video]
      · simp [h1, h2, h3, isOk_map, from_dict_fails_image]
    · simp [h1, h2, isOk_map, from_dict_fails_text]
  · simp [h1, isOk_map, from_dict_fails_reaction]

/-- C1 counterexample: the structurally valid JSON objects
`{"text": "hi"}` and `{"text": {"message": "Hello!"}}` (the docstring's
own example shape) both make the parser raise — `AttributeError` and
`TypeError` respectively — so `parse_webhook_message` is not total on
JSON objects, with or without garbage field values. -/
theorem parse_not_total_cex :
    parse_webhook_message [("text", JValue.str "hi")] = .error .attributeError ∧
    parse_webhook_message [("text", JValue.obj [("message", JValue.str "Hello!")])]
      = .error .typeError := by
  refine ⟨by decide, by decide⟩

end ZApi

